import Mathlib

/-!
Shallow embedding of
src/lib/vscode/src/vs/workbench/contrib/webviewBrige/browser/webviewBrige.contribution.ts

The file defines a reconnecting WebSocket client (`MessageCenterClient`) and a
workbench contribution (`WebviewBrigeContribution`) that routes inbound
JSON command messages to editor actions.  Platform facilities that are
external to the repository (the browser WebSocket object, JSON.parse /
JSON.stringify, the interactive prompt, timers) are modelled as explicit
parameters or as events applied to the client state, so that every handler of
the source becomes a pure Lean function on the client state.
-/

namespace WebviewBrige

/-! WebSocket readyState constants of the browser platform. -/

def CONNECTING : Nat := 0
def OPEN : Nat := 1
def CLOSING : Nat := 2
def CLOSED : Nat := 3

/-!
Endpoint resolution, from the top of the source file:
  const port = navigator.userAgent.match(/port\/(\d*)/);
  const url = `ws://127.0.0.1:$\x7bport ? parseInt(port[1], 10) : 9974\x7d`;
The regex scans for the first occurrence of the literal "port/" and captures
the (possibly empty, because the source uses \d*) maximal digit run after it.
-/

def matchPortAux : List Char → Option (List Char)
  | [] => none
  | c :: rest =>
      if (c :: rest).take 5 = "port/".toList then
        some ((rest.drop 4).takeWhile Char.isDigit)
      else
        matchPortAux rest

def matchPort (ua : String) : Option String :=
  (matchPortAux ua.toList).map fun cap => String.mk cap

/-- JS parseInt(s, 10) restricted to the all-digit captures produced by the
regex above: the decimal value of the digits, and NaN (modelled as none)
exactly on the empty capture. -/
def parseIntDec (s : String) : Option Nat :=
  if !s.data.isEmpty && s.data.all Char.isDigit then
    some (s.data.foldl (fun acc ch => acc * 10 + (ch.toNat - 48)) 0)
  else none

/-- The text interpolated for the port in the template literal: a decimal
number, or "NaN" when parseInt returns NaN. -/
def portComponent (ua : String) : String :=
  match matchPort ua with
  | none => toString 9974
  | some cap =>
      match parseIntDec cap with
      | some n => toString n
      | none => "NaN"

def url (ua : String) : String :=
  "ws://127.0.0.1:" ++ portComponent ua

/-! The client state and its event handlers. -/

/-- Observable side effects of the handlers: console.error logging and
setTimeout-scheduled reconnect attempts (delay in milliseconds; the scheduled
action is always this.connect()). -/
inductive Effect where
  | logError : String → Effect
  | scheduleConnect : Nat → Effect
deriving DecidableEq, Repr

/-- The live WebSocket handle: its constructor arguments, its readyState and
the frames transmitted through it, in order. -/
structure WS where
  wsUrl : String
  subProtocol : String
  readyState : Nat
  sent : List String
deriving DecidableEq, Repr

/-- MessageCenterClient state.  Messages are an opaque payload type α (the
source uses `any`).  Callbacks are pure functions that may report a thrown
exception as `Except.error`. -/
structure Client (α : Type) where
  protocol : String
  ws : Option WS
  msgQueue : List α
  callback : List (α → Except String Unit)

/-- MessageCenterClient.send.  `stringify` models JSON.stringify. -/
def send (stringify : α → String) (c : Client α) (msg : α) : Client α :=
  match c.ws with
  | some w =>
      if w.readyState = OPEN then
        { c with ws := some { w with sent := w.sent ++ [stringify msg] } }
      else
        { c with msgQueue := c.msgQueue ++ [msg] }
  | none => { c with msgQueue := c.msgQueue ++ [msg] }

/-- The open event on the socket: the platform moves readyState to OPEN, then
the onopen handler runs: it copies the queue, empties it, and re-sends each
copied message through this.send. -/
def openEvent (stringify : α → String) (c : Client α) : Client α :=
  match c.ws with
  | none => c
  | some w =>
      let c1 : Client α := { c with ws := some { w with readyState := OPEN } }
      let queued := c1.msgQueue
      let c2 : Client α := { c1 with msgQueue := [] }
      queued.foldl (fun st m => send stringify st m) c2

/-- The onclose handler: drop the handle, schedule connect() after 1000 ms. -/
def closeEvent (c : Client α) : Client α × List Effect :=
  ({ c with ws := none }, [Effect.scheduleConnect 1000])

/-- The onerror handler: console.error only; no state change, no scheduling. -/
def errorEvent (c : Client α) : Client α × List Effect :=
  (c, [Effect.logError "WebSocket error:"])

def cbLog : Except String Unit → List Effect
  | Except.ok _ => []
  | Except.error e => [Effect.logError ("Error in message callback: " ++ e)]

/-- The forEach loop of the onmessage handler: invoke each callback in
registration order with the parsed message, catching and logging each
callback's exception.  Returns the list of invocations (argument and outcome,
in order) together with the logged effects. -/
def runCallbacks (cbs : List (α → Except String Unit)) (msg : α) :
    List (α × Except String Unit) × List Effect :=
  match cbs with
  | [] => ([], [])
  | cb :: rest =>
      let r := cb msg
      let tail := runCallbacks rest msg
      ((msg, r) :: tail.1, cbLog r ++ tail.2)

/-- The onmessage handler.  `parse` models JSON.parse on the frame text,
returning none when parsing throws; that outer exception is caught and
logged and no callback runs. -/
def messageEvent (parse : String → Option α) (c : Client α) (frameData : String) :
    Client α × List (α × Except String Unit) × List Effect :=
  match parse frameData with
  | some msg => (c, runCallbacks c.callback msg)
  | none => (c, [], [Effect.logError "Failed to parse message:"])

/-- MessageCenterClient.connect.  `promptResult` is the value returned by the
interactive prompt (null modelled as none); `ua` is navigator.userAgent.
When the token is available a new WebSocket is constructed (readyState
CONNECTING, nothing sent yet) and stored in this.ws. -/
def connect (c : Client α) (promptResult : Option String) (ua : String) :
    Client α × List Effect :=
  match promptResult with
  | none => (c, [Effect.logError "Failed to get message token."])
  | some e =>
      let sub := c.protocol ++ "#" ++ e ++ "#"
      ({ c with ws := some { wsUrl := url ua, subProtocol := sub,
                             readyState := CONNECTING, sent := [] } }, [])

/-- A runtime argument to registerCallback: the TS signature says function,
but the code still guards with typeof, so the model keeps both cases. -/
inductive CbArg (α : Type) where
  | fn : (α → Except String Unit) → CbArg α
  | notFn : String → CbArg α

/-- MessageCenterClient.registerCallback. -/
def registerCallback (c : Client α) (arg : CbArg α) : Client α :=
  match arg with
  | CbArg.fn f => { c with callback := c.callback ++ [f] }
  | CbArg.notFn _ => c

/-!
WebviewBrigeContribution: the command router registered as a listener, and
its openFile action.
-/

/-- JSON values as seen by the router (the destructured message shape). -/
inductive JVal where
  | str : String → JVal
  | num : Int → JVal
  | boolean : Bool → JVal
  | null : JVal
  | obj : List (String × JVal) → JVal

/-- JS strict equality of a value against a string literal, as in
data === "theme-2". -/
def isStrEq (v : JVal) (s : String) : Bool :=
  match v with
  | JVal.str t => t = s
  | _ => false

/-- JS property access data.filePath; undefined is modelled as none. -/
def getProp (v : JVal) (k : String) : Option JVal :=
  match v with
  | JVal.obj fields => fields.lookup k
  | _ => none

/-- The action the router's switch selects for a message. -/
inductive RouterAction where
  | openFileAct : Option JVal → RouterAction
  | changeTheme : String → RouterAction
  | changeLanguage : String → RouterAction

/-- The callback body registered in WebviewBrigeContribution.init: a switch
on command with no default case, so unrecognized commands select nothing. -/
def routerDispatch (command : String) (data : JVal) : Option RouterAction :=
  if command = "openFile" then
    some (RouterAction.openFileAct (getProp data "filePath"))
  else if command = "updateTheme" then
    some (RouterAction.changeTheme
      (if isStrEq data "theme-2" then "Visual Studio Light" else "Default Dark+"))
  else if command = "updateLocale" then
    some (RouterAction.changeLanguage
      (if isStrEq data "zh-CN" then "zh-CN" else "en"))
  else
    none

/-- URI.joinPath of the first workspace folder and the relative path. -/
def joinPath (folderUri : String) (filePath : String) : String :=
  folderUri ++ "/" ++ filePath

/-- The request issued to the editor service by openFile. -/
structure OpenEditorCall where
  resource : String
  pinned : Bool
deriving DecidableEq, Repr

/-- WebviewBrigeContribution.openFile.  `folders` are the workspace folder
URIs and `openEditor` the external editor service.  The source reads
workspaceFolders[0].uri before its try block, so an empty folder list raises
an uncaught TypeError (modelled as Except.error escaping the function); only
a failure of the awaited openEditor call is caught and logged. -/
def openFile (folders : List String) (openEditor : OpenEditorCall → Except String Unit)
    (filePath : String) : Except String (OpenEditorCall × List Effect) :=
  match folders with
  | [] => Except.error "TypeError: cannot read properties of undefined"
  | folderUri :: _ =>
      let fileUri := joinPath folderUri filePath
      let call : OpenEditorCall := { resource := fileUri, pinned := true }
      match openEditor call with
      | Except.ok _ => Except.ok (call, [])
      | Except.error _ =>
          Except.ok (call, [Effect.logError ("Failed to open " ++ filePath ++ " :")])

/-- Recognizer for the setTimeout-reconnect effect. -/
def isScheduleConnect : Effect → Bool
  | Effect.scheduleConnect _ => true
  | Effect.logError _ => false

/-- A client whose socket is open, used by witnesses. -/
def openClient : Client Nat :=
  { protocol := "EXTENSION_EDITOR",
    ws := some { wsUrl := "ws://127.0.0.1:9974", subProtocol := "s",
                 readyState := OPEN, sent := [] },
    msgQueue := [], callback := [] }

/-- A client with no socket, used by witnesses. -/
def disconnectedClient : Client Nat :=
  { protocol := "EXTENSION_EDITOR", ws := none, msgQueue := [], callback := [] }

/-- An open client with two listeners, the first of which throws. -/
def twoListenerClient : Client Nat :=
  { protocol := "EXTENSION_EDITOR",
    ws := some { wsUrl := "ws://127.0.0.1:9974", subProtocol := "s",
                 readyState := OPEN, sent := [] },
    msgQueue := [],
    callback := [fun _ => Except.error "boom", fun _ => Except.ok ()] }

/-! Helper lemmas about send and the open-event replay. -/

theorem send_notOpen (stringify : α → String) (c : Client α) (m : α)
    (h : ∀ w, c.ws = some w → w.readyState ≠ OPEN) :
    send stringify c m = { c with msgQueue := c.msgQueue ++ [m] } := by
  cases hw : c.ws with
  | none => simp [send, hw]
  | some w => simp [send, hw, h w hw]

theorem send_open (stringify : α → String) (c : Client α) (w : WS) (m : α)
    (hw : c.ws = some w) (hopen : w.readyState = OPEN) :
    send stringify c m =
      { c with ws := some { w with sent := w.sent ++ [stringify m] } } := by
  simp [send, hw, hopen]

theorem foldl_send_notOpen (stringify : α → String) (msgs : List α) (c : Client α)
    (h : ∀ w, c.ws = some w → w.readyState ≠ OPEN) :
    msgs.foldl (fun st m => send stringify st m) c =
      { c with msgQueue := c.msgQueue ++ msgs } := by
  induction msgs generalizing c with
  | nil => simp
  | cons m rest ih =>
      simp only [List.foldl_cons]
      rw [send_notOpen stringify c m h]
      rw [ih { c with msgQueue := c.msgQueue ++ [m] } h]
      simp

theorem foldl_send_open (stringify : α → String) (msgs : List α) (c : Client α) (w : WS)
    (hw : c.ws = some w) (hopen : w.readyState = OPEN) :
    msgs.foldl (fun st m => send stringify st m) c =
      { c with ws := some { w with sent := w.sent ++ msgs.map stringify } } := by
  induction msgs generalizing c w with
  | nil =>
      simp only [List.foldl_nil, List.map_nil, List.append_nil]
      rw [show ({ w with sent := w.sent } : WS) = w from rfl, ← hw]
  | cons m rest ih =>
      simp only [List.foldl_cons]
      rw [send_open stringify c w m hw hopen]
      rw [ih { c with ws := some { w with sent := w.sent ++ [stringify m] } }
            { w with sent := w.sent ++ [stringify m] } rfl hopen]
      simp

theorem openEvent_spec (stringify : α → String) (c : Client α) (w : WS)
    (hw : c.ws = some w) :
    openEvent stringify c =
      { c with msgQueue := [],
               ws := some { w with
                            readyState := OPEN,
                            sent := w.sent ++ c.msgQueue.map stringify } } := by
  unfold openEvent
  rw [hw]
  dsimp only
  rw [foldl_send_open stringify c.msgQueue
        { c with ws := some { w with readyState := OPEN }, msgQueue := [] }
        { w with readyState := OPEN } rfl rfl]

/-- C1: messages sent while the connection is not open are appended to the
queue in call order and nothing is transmitted; when the open event then
fires, the queue is swapped for an empty one and every queued message is
transmitted through the open connection in its original insertion order, with
no duplication and no loss, leaving the queue empty. -/
theorem C1_queue_replay_on_open (stringify : α → String) (c : Client α) (w : WS)
    (msgs : List α) (hw : c.ws = some w) (hnot : w.readyState ≠ OPEN) :
    (msgs.foldl (fun st m => send stringify st m) c).msgQueue = c.msgQueue ++ msgs ∧
    (msgs.foldl (fun st m => send stringify st m) c).ws = c.ws ∧
    (openEvent stringify (msgs.foldl (fun st m => send stringify st m) c)).msgQueue = [] ∧
    (openEvent stringify (msgs.foldl (fun st m => send stringify st m) c)).ws =
      some { w with readyState := OPEN,
                    sent := w.sent ++ (c.msgQueue ++ msgs).map stringify } := by
  have hfold := foldl_send_notOpen stringify msgs c
    (fun w' hw' => by rw [hw] at hw'; cases hw'; exact hnot)
  have hopen := openEvent_spec stringify { c with msgQueue := c.msgQueue ++ msgs } w hw
  refine ⟨by rw [hfold], by rw [hfold], ?_, ?_⟩
  · rw [hfold, hopen]
  · rw [hfold, hopen]

/-- C1 witness: two queued numbers are replayed in order on open. -/
theorem C1_queue_replay_on_open_witness :
    (([3, 7] : List Nat).foldl
        (fun st m => send toString st m)
        { protocol := "EXTENSION_EDITOR",
          ws := some { wsUrl := "ws://127.0.0.1:9974", subProtocol := "s",
                       readyState := CONNECTING, sent := [] },
          msgQueue := [], callback := [] }).msgQueue = [3, 7] ∧
    (([3, 7] : List Nat).foldl
        (fun st m => send toString st m)
        { protocol := "EXTENSION_EDITOR",
          ws := some { wsUrl := "ws://127.0.0.1:9974", subProtocol := "s",
                       readyState := CONNECTING, sent := [] },
          msgQueue := [], callback := [] }).ws =
      some { wsUrl := "ws://127.0.0.1:9974", subProtocol := "s",
             readyState := CONNECTING, sent := [] } ∧
    (openEvent toString (([3, 7] : List Nat).foldl
        (fun st m => send toString st m)
        { protocol := "EXTENSION_EDITOR",
          ws := some { wsUrl := "ws://127.0.0.1:9974", subProtocol := "s",
                       readyState := CONNECTING, sent := [] },
          msgQueue := [], callback := [] })).msgQueue = [] ∧
    (openEvent toString (([3, 7] : List Nat).foldl
        (fun st m => send toString st m)
        { protocol := "EXTENSION_EDITOR",
          ws := some { wsUrl := "ws://127.0.0.1:9974", subProtocol := "s",
                       readyState := CONNECTING, sent := [] },
          msgQueue := [], callback := [] })).ws =
      some { wsUrl := "ws://127.0.0.1:9974", subProtocol := "s",
             readyState := OPEN, sent := ["3", "7"] } :=
  C1_queue_replay_on_open toString
    { protocol := "EXTENSION_EDITOR",
      ws := some { wsUrl := "ws://127.0.0.1:9974", subProtocol := "s",
                   readyState := CONNECTING, sent := [] },
      msgQueue := [], callback := [] }
    { wsUrl := "ws://127.0.0.1:9974", subProtocol := "s",
      readyState := CONNECTING, sent := [] }
    [3, 7] rfl (by decide)

/-- C2: when the connection is OPEN, send transmits the JSON serialization of
the message immediately without entering the queue; otherwise it appends the
message to the tail of the queue, leaving the socket untouched; in both cases
send is a total function and returns normally to its caller. -/
theorem C2_send_transmit_or_queue (stringify : α → String) (c : Client α) (m : α) :
    (∀ w, c.ws = some w → w.readyState = OPEN →
        send stringify c m =
          { c with ws := some { w with sent := w.sent ++ [stringify m] } }) ∧
    ((∀ w, c.ws = some w → w.readyState ≠ OPEN) →
        send stringify c m = { c with msgQueue := c.msgQueue ++ [m] }) :=
  ⟨fun w hw hopen => send_open stringify c w m hw hopen,
   fun h => send_notOpen stringify c m h⟩

/-- C2 witness: transmit-immediately on an open client, queue on a
disconnected one. -/
theorem C2_send_transmit_or_queue_witness :
    send toString openClient 5 =
      { openClient with
        ws := some { wsUrl := "ws://127.0.0.1:9974", subProtocol := "s",
                     readyState := OPEN, sent := ["5"] } } ∧
    send toString disconnectedClient 5 =
      { disconnectedClient with msgQueue := [5] } :=
  ⟨(C2_send_transmit_or_queue toString openClient 5).1 _ rfl rfl,
   (C2_send_transmit_or_queue toString disconnectedClient 5).2
     (fun w hw => by cases hw)⟩

/-- C3 counterexample: the onerror handler alone does not drop the connection
handle and does not schedule a reconnect: on an open client an error event
leaves the handle in place and only logs. -/
theorem C3_counterexample :
    (errorEvent openClient).1.ws =
      some { wsUrl := "ws://127.0.0.1:9974", subProtocol := "s",
             readyState := OPEN, sent := [] } ∧
    (errorEvent openClient).2 = [Effect.logError "WebSocket error:"] ∧
    Effect.scheduleConnect 1000 ∉ (errorEvent openClient).2 :=
  ⟨rfl, rfl, by decide⟩

/-- C3 amended: every transport close event drops the Connection handle and
schedules exactly one new connect attempt after a fixed 1000 ms delay,
unconditionally and indefinitely (no backoff growth, no retry cap); an error
event by itself only logs, changing no state and scheduling nothing, the
handle drop and reconnect being driven by the accompanying close event. -/
theorem C3_close_schedules_reconnect (c : Client α) :
    (closeEvent c).1.ws = none ∧
    (closeEvent c).1.msgQueue = c.msgQueue ∧
    (closeEvent c).1.callback = c.callback ∧
    (closeEvent c).2 = [Effect.scheduleConnect 1000] ∧
    ((closeEvent c).2.filter isScheduleConnect).length = 1 ∧
    (errorEvent c).1 = c ∧
    (errorEvent c).2.filter isScheduleConnect = [] :=
  ⟨rfl, rfl, rfl, rfl, rfl, rfl, rfl⟩

theorem runCallbacks_invocations (cbs : List (α → Except String Unit)) (msg : α) :
    (runCallbacks cbs msg).1 = cbs.map (fun cb => (msg, cb msg)) := by
  induction cbs with
  | nil => rfl
  | cons cb rest ih => simp [runCallbacks, ih]

theorem runCallbacks_effects (cbs : List (α → Except String Unit)) (msg : α) :
    (runCallbacks cbs msg).2 = (cbs.map (fun cb => cbLog (cb msg))).flatten := by
  induction cbs with
  | nil => rfl
  | cons cb rest ih => simp [runCallbacks, ih]

/-- C5: a frame that parses as JSON is delivered synchronously to every
registered listener in registration order with the parsed message; an
exception from one listener is caught and logged and does not prevent the
invocation of the later listeners; and no listener outcome changes the
client state (queue or connection). -/
theorem C5_listener_dispatch (parse : String → Option α) (c : Client α)
    (frame : String) (msg : α) (h : parse frame = some msg) :
    (messageEvent parse c frame).1 = c ∧
    (messageEvent parse c frame).2.1 = c.callback.map (fun cb => (msg, cb msg)) ∧
    (messageEvent parse c frame).2.2 =
      (c.callback.map (fun cb => cbLog (cb msg))).flatten := by
  unfold messageEvent
  rw [h]
  exact ⟨rfl, runCallbacks_invocations c.callback msg,
         runCallbacks_effects c.callback msg⟩

/-- C5 witness: both listeners of a two-listener client run on a parsed
frame, the first throwing, and the state is unchanged. -/
theorem C5_listener_dispatch_witness :
    (messageEvent parseIntDec twoListenerClient "42").1 = twoListenerClient ∧
    (messageEvent parseIntDec twoListenerClient "42").2.1 =
      twoListenerClient.callback.map (fun cb => (42, cb 42)) ∧
    (messageEvent parseIntDec twoListenerClient "42").2.2 =
      (twoListenerClient.callback.map (fun cb => cbLog (cb 42))).flatten :=
  C5_listener_dispatch parseIntDec twoListenerClient "42" 42 (by decide)

/-- C6: an inbound frame that fails to parse as JSON invokes no listener,
leaves the client state (connection and queue) unchanged, logs the parse
failure, and the handler returns normally with no escaping exception. -/
theorem C6_malformed_frame (parse : String → Option α) (c : Client α)
    (frame : String) (h : parse frame = none) :
    messageEvent parse c frame =
      (c, [], [Effect.logError "Failed to parse message:"]) := by
  unfold messageEvent
  rw [h]

/-- C6 witness: a non-JSON frame on the two-listener client. -/
theorem C6_malformed_frame_witness :
    messageEvent parseIntDec twoListenerClient "not json" =
      (twoListenerClient, [], [Effect.logError "Failed to parse message:"]) :=
  C6_malformed_frame parseIntDec twoListenerClient "not json" (by decide)

/-- C7: when the token prompt returns no value, connect logs the failure and
returns: no socket is constructed, no retry is scheduled, and the whole
client state (connection handle, queue, listener list) is unchanged, so the
client sits idle until connect is invoked again. -/
theorem C7_no_token_idle (c : Client α) (ua : String) :
    connect c none ua = (c, [Effect.logError "Failed to get message token."]) ∧
    (connect c none ua).2.filter isScheduleConnect = [] :=
  ⟨rfl, rfl⟩

/-- C10: registerCallback appends its argument to the listener list exactly
when the argument is a function and leaves the client completely unchanged
otherwise, returning normally in both cases; hence the listener list only
ever grows and, holding functions by construction, stays callable
throughout. -/
theorem C10_registerCallback_guard (c : Client α) (arg : CbArg α) :
    (registerCallback c arg).callback =
      c.callback ++ (match arg with
                     | CbArg.fn f => [f]
                     | CbArg.notFn _ => []) ∧
    (registerCallback c arg).ws = c.ws ∧
    (registerCallback c arg).msgQueue = c.msgQueue ∧
    (registerCallback c arg).protocol = c.protocol ∧
    ∃ suffix, (registerCallback c arg).callback = c.callback ++ suffix := by
  cases arg with
  | fn f => exact ⟨rfl, rfl, rfl, rfl, [f], rfl⟩
  | notFn s =>
      exact ⟨(List.append_nil _).symm, rfl, rfl, rfl, [],
             (List.append_nil _).symm⟩

/-! Characterization of the port-pattern scan. -/

theorem matchPortAux_none_iff (l : List Char) :
    matchPortAux l = none ↔ ¬ "port/".toList <:+: l := by
  induction l with
  | nil =>
      simp only [matchPortAux, List.infix_nil]
      decide
  | cons c rest ih =>
      by_cases h : (c :: rest).take 5 = "port/".toList
      · have hinf : "port/".toList <:+: c :: rest := by
          rw [← h]
          exact (List.take_prefix 5 (c :: rest)).isInfix
        rw [matchPortAux, if_pos h]
        exact iff_of_false (fun hco => Option.noConfusion hco) (not_not_intro hinf)
      · have hpre : ¬ "port/".toList <+: c :: rest := by
          intro hp
          have heq := List.prefix_iff_eq_take.mp hp
          have hlen : ("port/".toList).length = 5 := rfl
          rw [hlen] at heq
          exact h heq.symm
        rw [matchPortAux, if_neg h, ih, List.infix_cons_iff, not_or]
        exact (and_iff_right hpre).symm

theorem matchPortAux_digits (l : List Char) (cap : List Char)
    (h : matchPortAux l = some cap) : cap.all Char.isDigit = true := by
  induction l with
  | nil => cases h
  | cons c rest ih =>
      by_cases hc : (c :: rest).take 5 = "port/".toList
      · rw [matchPortAux, if_pos hc] at h
        cases h
        exact List.all_eq_true.mpr fun x hx => List.mem_takeWhile_imp hx
      · rw [matchPortAux, if_neg hc] at h
        exact ih h

theorem matchPort_none_iff (ua : String) :
    matchPort ua = none ↔ ¬ "port/".toList <:+: ua.toList := by
  rw [matchPort, Option.map_eq_none', matchPortAux_none_iff]

/-- C4 counterexample: the source regex is port/(\d*), so userAgent "port/"
matches with an empty capture, parseInt of the empty string is NaN, and the
URL is ws://127.0.0.1:NaN, not the claimed default ws://127.0.0.1:9974 and
not a well-formed numeric port. -/
theorem C4_counterexample :
    url "port/" = "ws://127.0.0.1:NaN" ∧
    url "port/" ≠ "ws://127.0.0.1:9974" := by
  refine ⟨?_, ?_⟩ <;> decide

/-- C4 amended: the endpoint port is taken from the first match of
port/(\d*) in the userAgent string: when the literal "port/" does not occur
the port defaults to 9974; when it occurs, the capture is an all-digit
(possibly empty) run, a nonempty capture yields its decimal value as the
port, and an empty capture yields NaN so that the URL is ws://127.0.0.1:NaN
rather than a numeric port. -/
theorem C4_port_resolution (ua : String) :
    (matchPort ua = none ↔ ¬ "port/".toList <:+: ua.toList) ∧
    (matchPort ua = none → url ua = "ws://127.0.0.1:9974") ∧
    (∀ cap, matchPort ua = some cap → cap.data.all Char.isDigit = true) ∧
    (∀ cap n, matchPort ua = some cap → parseIntDec cap = some n →
        url ua = "ws://127.0.0.1:" ++ toString n) ∧
    (∀ cap, matchPort ua = some cap → parseIntDec cap = none →
        url ua = "ws://127.0.0.1:NaN") := by
  refine ⟨matchPort_none_iff ua, ?_, ?_, ?_, ?_⟩
  · intro h
    unfold url portComponent
    rw [h]
    rfl
  · intro cap hcap
    rw [matchPort] at hcap
    cases hml : matchPortAux ua.toList with
    | none => rw [hml] at hcap; cases hcap
    | some cl =>
        rw [hml] at hcap
        simp only [Option.map_some'] at hcap
        cases hcap
        exact matchPortAux_digits ua.toList cl hml
  · intro cap n hcap hn
    unfold url portComponent
    rw [hcap]
    dsimp only
    rw [hn]
  · intro cap hcap hn
    unfold url portComponent
    rw [hcap]
    dsimp only
    rw [hn]
    rfl

/-- C4 witness: a digit-bearing userAgent resolves to its port and a
port-free one to the default. -/
theorem C4_port_resolution_witness :
    url "Mozilla port/8080 x" = "ws://127.0.0.1:" ++ toString 8080 ∧
    url "Mozilla" = "ws://127.0.0.1:9974" :=
  ⟨(C4_port_resolution "Mozilla port/8080 x").2.2.2.1 "8080" 8080
     (by decide) (by decide),
   (C4_port_resolution "Mozilla").2.1 (by decide)⟩

/-- C8 counterexample: with no workspace folders, openFile dereferences
workspaceFolders[0] before its try block, raising an uncaught TypeError: the
failure is not logged and the exception escapes the handler (surfacing as an
unhandled promise rejection), contrary to the claim. -/
theorem C8_counterexample :
    openFile [] (fun _ => Except.ok ()) "a.ts" =
      Except.error "TypeError: cannot read properties of undefined" := rfl

/-- C8 amended: when at least one workspace folder exists, the path is
resolved against the first folder and the editor service is asked to open the
resolved resource as a pinned tab; a failure of the editor-open call itself
is caught and logged and openFile returns normally; with no workspace
folder, however, an uncaught TypeError escapes the handler and nothing is
logged. -/
theorem C8_openFile_resolution (folders : List String) (f : String)
    (rest : List String) (openEditor : OpenEditorCall → Except String Unit)
    (filePath : String) (h : folders = f :: rest) :
    (openEditor { resource := joinPath f filePath, pinned := true } = Except.ok () →
        openFile folders openEditor filePath =
          Except.ok ({ resource := joinPath f filePath, pinned := true }, [])) ∧
    (∀ e, openEditor { resource := joinPath f filePath, pinned := true } =
            Except.error e →
        openFile folders openEditor filePath =
          Except.ok ({ resource := joinPath f filePath, pinned := true },
                     [Effect.logError ("Failed to open " ++ filePath ++ " :")])) ∧
    openFile [] openEditor filePath =
      Except.error "TypeError: cannot read properties of undefined" := by
  subst h
  refine ⟨?_, ?_, rfl⟩
  · intro hok
    unfold openFile
    dsimp only
    rw [hok]
  · intro e herr
    unfold openFile
    dsimp only
    rw [herr]

/-- C8 witness: one workspace folder and a succeeding editor call. -/
theorem C8_openFile_resolution_witness :
    openFile ["root"] (fun _ => Except.ok ()) "a.ts" =
      Except.ok ({ resource := "root/a.ts", pinned := true }, []) :=
  (C8_openFile_resolution ["root"] "root" [] (fun _ => Except.ok ()) "a.ts"
    rfl).1 rfl

/-- C9: an updateTheme command resolves data "theme-2" to the light theme
identifier and every other data value to the default dark identifier, the
resolved identifier being what the theme-apply action receives; a command
matching no recognized name selects no action. -/
theorem C9_theme_resolution :
    routerDispatch "updateTheme" (JVal.str "theme-2") =
      some (RouterAction.changeTheme "Visual Studio Light") ∧
    (∀ d : JVal, d ≠ JVal.str "theme-2" →
        routerDispatch "updateTheme" d =
          some (RouterAction.changeTheme "Default Dark+")) ∧
    (∀ cmd : String, ∀ d : JVal,
        cmd ∉ (["openFile", "updateTheme", "updateLocale"] : List String) →
        routerDispatch cmd d = none) := by
  refine ⟨rfl, ?_, ?_⟩
  · intro d hd
    cases d with
    | str t =>
        have ht : t ≠ "theme-2" := fun ht => hd (by rw [ht])
        simp [routerDispatch, isStrEq, ht]
    | num n => simp [routerDispatch, isStrEq]
    | boolean b => simp [routerDispatch, isStrEq]
    | null => simp [routerDispatch, isStrEq]
    | obj fields => simp [routerDispatch, isStrEq]
  · intro cmd d hc
    simp only [List.mem_cons, List.not_mem_nil, or_false, not_or] at hc
    simp [routerDispatch, hc.1, hc.2.1, hc.2.2]

/-- C9 witness: the three dispatch outcomes at concrete inputs. -/
theorem C9_theme_resolution_witness :
    routerDispatch "updateTheme" (JVal.str "theme-2") =
      some (RouterAction.changeTheme "Visual Studio Light") ∧
    routerDispatch "updateTheme" (JVal.str "anything-else") =
      some (RouterAction.changeTheme "Default Dark+") ∧
    routerDispatch "updateFont" JVal.null = none :=
  ⟨C9_theme_resolution.1,
   C9_theme_resolution.2.1 (JVal.str "anything-else") (by simp),
   C9_theme_resolution.2.2 "updateFont" JVal.null (by decide)⟩

end WebviewBrige
